import Mathlib

/-!
Shallow embedding of `src/appinsights/src/config.rs`: the `Config` value
type, the default-seeding stage `DefaultBuilder`, and the mutable `Builder`,
together with theorems settling the claims about them.

Rust's `std::time::Duration` is modelled as a count of nanoseconds; the
generic `I: Into<String>` argument positions are modelled as `String`.
All definitions are total computable functions, mirroring the fact that
no operation of the module can fail.
-/

namespace AppInsights

/-- Model of `std::time::Duration`: a nanosecond count. -/
structure Duration where
  nanos : Nat
deriving DecidableEq, Repr

/-- Model of `Duration::from_secs`. -/
def Duration.from_secs (s : Nat) : Duration :=
  ⟨s * 1000000000⟩

/-- Model of `Duration::from_micros`. -/
def Duration.from_micros (u : Nat) : Duration :=
  ⟨u * 1000⟩

/-- The `Config` struct of `config.rs`: instrumentation key, endpoint URL,
and maximum wait before a telemetry batch is sent.  The Lean projections
`Config.ikey`, `Config.endpoint`, `Config.interval` embed the Rust
accessors of the same names, which return the stored fields unchanged. -/
structure Config where
  ikey : String
  endpoint : String
  interval : Duration
deriving DecidableEq, Repr

/-- The `DefaultBuilder` unit struct: the stateless default-seeding stage. -/
structure DefaultBuilder where
deriving Repr

/-- The mutable `Builder` struct: the same three fields as `Config` in a
partially-constructed state.  The Lean projections `Builder.endpoint` and
`Builder.interval` embed the Rust peek accessors of the same names. -/
structure Builder where
  ikey : String
  endpoint : String
  interval : Duration
deriving DecidableEq, Repr

/-- `Config::builder()`: returns a fresh default-seeding stage. -/
def Config.builder : DefaultBuilder :=
  {}

/-- `DefaultBuilder::with_ikey`: consumes the stage and returns a `Builder`
populated with the given key, the default endpoint and a 2-second interval. -/
def DefaultBuilder.with_ikey (_ : DefaultBuilder) (ikey : String) : Builder :=
  { ikey := ikey
    endpoint := "https://dc.services.visualstudio.com/v2/track"
    interval := Duration.from_secs 2 }

/-- `Builder::with_ikey`: replaces the staged instrumentation key. -/
def Builder.with_ikey (b : Builder) (ikey : String) : Builder :=
  { b with ikey := ikey }

/-- `Builder::with_endpoint`: replaces the staged endpoint. -/
def Builder.with_endpoint (b : Builder) (endpoint : String) : Builder :=
  { b with endpoint := endpoint }

/-- `Builder::with_interval`: replaces the staged interval. -/
def Builder.with_interval (b : Builder) (interval : Duration) : Builder :=
  { b with interval := interval }

/-- `Builder::build`: finalizes the builder into a `Config`, copying the
three staged fields verbatim. -/
def Builder.build (b : Builder) : Config :=
  { ikey := b.ikey
    endpoint := b.endpoint
    interval := b.interval }

/-- `Config::new`: `Config::builder().with_ikey(ikey).build()`. -/
def Config.new (ikey : String) : Config :=
  (Config.builder.with_ikey ikey).build

/-- One override call on the mutable builder, used to quantify over
arbitrary sequences of override calls. -/
inductive Op where
  | setIkey (k : String)
  | setEndpoint (e : String)
  | setInterval (d : Duration)
deriving DecidableEq, Repr

/-- Apply one override call to a builder. -/
def Builder.applyOp (b : Builder) : Op → Builder
  | Op.setIkey k => b.with_ikey k
  | Op.setEndpoint e => b.with_endpoint e
  | Op.setInterval d => b.with_interval d

/-- Apply a sequence of override calls, left to right. -/
def Builder.applyOps (b : Builder) (ops : List Op) : Builder :=
  ops.foldl Builder.applyOp b

/-- The value of the last `with_ikey` override in a call sequence, if any. -/
def lastIkey : List Op → Option String
  | [] => none
  | Op.setIkey k :: rest => some ((lastIkey rest).getD k)
  | _ :: rest => lastIkey rest

/-- The value of the last `with_endpoint` override in a call sequence, if any. -/
def lastEndpoint : List Op → Option String
  | [] => none
  | Op.setEndpoint e :: rest => some ((lastEndpoint rest).getD e)
  | _ :: rest => lastEndpoint rest

/-- The value of the last `with_interval` override in a call sequence, if any. -/
def lastInterval : List Op → Option Duration
  | [] => none
  | Op.setInterval d :: rest => some ((lastInterval rest).getD d)
  | _ :: rest => lastInterval rest

theorem applyOps_cons (b : Builder) (op : Op) (rest : List Op) :
    b.applyOps (op :: rest) = (b.applyOp op).applyOps rest := rfl

theorem applyOps_ikey (ops : List Op) :
    ∀ b : Builder, (b.applyOps ops).ikey = (lastIkey ops).getD b.ikey := by
  induction ops with
  | nil => intro b; rfl
  | cons op rest ih =>
    intro b
    rw [applyOps_cons, ih]
    cases op with
    | setIkey k =>
      simp [lastIkey, Builder.applyOp, Builder.with_ikey]
    | setEndpoint e =>
      simp [lastIkey, Builder.applyOp, Builder.with_endpoint]
    | setInterval d =>
      simp [lastIkey, Builder.applyOp, Builder.with_interval]

theorem applyOps_endpoint (ops : List Op) :
    ∀ b : Builder, (b.applyOps ops).endpoint = (lastEndpoint ops).getD b.endpoint := by
  induction ops with
  | nil => intro b; rfl
  | cons op rest ih =>
    intro b
    rw [applyOps_cons, ih]
    cases op with
    | setIkey k =>
      simp [lastEndpoint, Builder.applyOp, Builder.with_ikey]
    | setEndpoint e =>
      simp [lastEndpoint, Builder.applyOp, Builder.with_endpoint]
    | setInterval d =>
      simp [lastEndpoint, Builder.applyOp, Builder.with_interval]

theorem applyOps_interval (ops : List Op) :
    ∀ b : Builder, (b.applyOps ops).interval = (lastInterval ops).getD b.interval := by
  induction ops with
  | nil => intro b; rfl
  | cons op rest ih =>
    intro b
    rw [applyOps_cons, ih]
    cases op with
    | setIkey k =>
      simp [lastInterval, Builder.applyOp, Builder.with_ikey]
    | setEndpoint e =>
      simp [lastInterval, Builder.applyOp, Builder.with_endpoint]
    | setInterval d =>
      simp [lastInterval, Builder.applyOp, Builder.with_interval]

/-- Claim C1: for all strings k, e and durations d, the chain
`Config::builder().with_ikey(k).with_endpoint(e).with_interval(d).build()`
yields a Config whose ikey equals k, whose endpoint equals e and whose
interval equals d. -/
theorem C1_builder_chain (k e : String) (d : Duration) :
    ((((Config.builder.with_ikey k).with_endpoint e).with_interval d).build).ikey = k ∧
    ((((Config.builder.with_ikey k).with_endpoint e).with_interval d).build).endpoint = e ∧
    ((((Config.builder.with_ikey k).with_endpoint e).with_interval d).build).interval = d :=
  ⟨rfl, rfl, rfl⟩

/-- Claim C2: for every string k, `Config::new(k)` yields a Config with
ikey k, the default endpoint, and a 2-second interval; the construction is
a total function of k, so it never fails, the empty string included. -/
theorem C2_new_defaults (k : String) :
    (Config.new k).ikey = k ∧
    (Config.new k).endpoint = "https://dc.services.visualstudio.com/v2/track" ∧
    (Config.new k).interval = Duration.from_secs 2 :=
  ⟨rfl, rfl, rfl⟩

/-- Claim C3: the built Config does not depend on the order of the three
override calls: seeding with any key k0 and then applying with_ikey k,
with_endpoint e and with_interval d in each of the six possible orders
yields the Config with ikey k, endpoint e and interval d. -/
theorem C3_override_order (k0 k e : String) (d : Duration) :
    ((((Config.builder.with_ikey k0).with_ikey k).with_endpoint e).with_interval d).build
      = Config.mk k e d ∧
    ((((Config.builder.with_ikey k0).with_ikey k).with_interval d).with_endpoint e).build
      = Config.mk k e d ∧
    ((((Config.builder.with_ikey k0).with_endpoint e).with_ikey k).with_interval d).build
      = Config.mk k e d ∧
    ((((Config.builder.with_ikey k0).with_endpoint e).with_interval d).with_ikey k).build
      = Config.mk k e d ∧
    ((((Config.builder.with_ikey k0).with_interval d).with_ikey k).with_endpoint e).build
      = Config.mk k e d ∧
    ((((Config.builder.with_ikey k0).with_interval d).with_endpoint e).with_ikey k).build
      = Config.mk k e d :=
  ⟨rfl, rfl, rfl, rfl, rfl, rfl⟩

/-- Claim C4: for every string k, the Config built via the convenience
constructor `Config::new(k)` and the Config built via the builder chain with
no overrides are structurally equal. -/
theorem C4_new_eq_builder (k : String) :
    Config.new k = (Config.builder.with_ikey k).build :=
  rfl

/-- Claim C5: the default-seeding stage's with_ikey(k) returns a builder
staged with exactly the given ikey, the default endpoint and the default
2-second interval, observable via the builder's endpoint and interval peeks
and via build. -/
theorem C5_seeding (k : String) :
    (Config.builder.with_ikey k).ikey = k ∧
    (Config.builder.with_ikey k).endpoint = "https://dc.services.visualstudio.com/v2/track" ∧
    (Config.builder.with_ikey k).interval = Duration.from_secs 2 ∧
    (Config.builder.with_ikey k).build
      = Config.mk k "https://dc.services.visualstudio.com/v2/track" (Duration.from_secs 2) :=
  ⟨rfl, rfl, rfl, rfl⟩

/-- Claim C6: for every seed key k0 and every sequence of override calls
(any order, any number of times), the finalized Config carries, per field,
the value of the last override call for that field, or the seeded default
when the field was never overridden. -/
theorem C6_last_write_wins (k0 : String) (ops : List Op) :
    (((Config.builder.with_ikey k0).applyOps ops).build) =
      Config.mk ((lastIkey ops).getD k0)
        ((lastEndpoint ops).getD "https://dc.services.visualstudio.com/v2/track")
        ((lastInterval ops).getD (Duration.from_secs 2)) := by
  have hi := applyOps_ikey ops (Config.builder.with_ikey k0)
  have he := applyOps_endpoint ops (Config.builder.with_ikey k0)
  have hd := applyOps_interval ops (Config.builder.with_ikey k0)
  simp only [Builder.build, Config.mk.injEq]
  exact ⟨hi, he, hd⟩

/-- Claim C7: each override call changes only its own field: with_endpoint
leaves ikey and interval unchanged, with_ikey leaves endpoint and interval
unchanged, with_interval leaves ikey and endpoint unchanged; moreover for
with_endpoint the last write wins, so a repeated call with the same value
changes nothing further. -/
theorem C7_frame (b : Builder) (k e e2 : String) (d : Duration) :
    (b.with_endpoint e).ikey = b.ikey ∧
    (b.with_endpoint e).interval = b.interval ∧
    ((b.with_endpoint e).with_endpoint e2) = b.with_endpoint e2 ∧
    ((b.with_endpoint e).with_endpoint e) = b.with_endpoint e ∧
    (b.with_ikey k).endpoint = b.endpoint ∧
    (b.with_ikey k).interval = b.interval ∧
    (b.with_interval d).ikey = b.ikey ∧
    (b.with_interval d).endpoint = b.endpoint :=
  ⟨rfl, rfl, rfl, rfl, rfl, rfl, rfl, rfl⟩

/-- Claim C8: every operation of the module is a total function (each is a
plain Lean function, defined on all inputs, with no error outcome); in
particular an empty ikey and a zero duration are accepted and round-trip
exactly through the accessors. -/
theorem C8_total_boundary (k : String) (d : Duration) :
    (((Config.builder.with_ikey k).with_interval d).build).ikey = k ∧
    (((Config.builder.with_ikey k).with_interval d).build).interval = d ∧
    (Config.new ("")).ikey = "" ∧
    (((Config.builder.with_ikey ("")).with_interval (Duration.from_secs 0)).build).ikey = "" ∧
    (((Config.builder.with_ikey ("")).with_interval (Duration.from_secs 0)).build).interval
      = Duration.from_secs 0 :=
  ⟨rfl, rfl, rfl, rfl, rfl⟩

/-- Claim C9: the accessors ikey, endpoint and interval are pure functions
returning exactly the stored field values, and a Config is fully determined
by them: no operation of the module changes a Config after build (the
embedding has no operation producing a modified Config from an existing
one, and rebuilding from the accessors returns the same value). -/
theorem C9_accessors (k e : String) (d : Duration) (c : Config) :
    (Config.mk k e d).ikey = k ∧
    (Config.mk k e d).endpoint = e ∧
    (Config.mk k e d).interval = d ∧
    Config.mk c.ikey c.endpoint c.interval = c :=
  ⟨rfl, rfl, rfl, rfl⟩

/-- Claim C10: for every reachable mutable-builder state (any seed key
followed by any sequence of override calls), the builder's peek accessors
agree with finalization: the staged endpoint and interval equal those of
the built Config, build copying the staged fields verbatim. -/
theorem C10_peek_agrees_with_build (k0 : String) (ops : List Op) :
    ((Config.builder.with_ikey k0).applyOps ops).endpoint
      = (((Config.builder.with_ikey k0).applyOps ops).build).endpoint ∧
    ((Config.builder.with_ikey k0).applyOps ops).interval
      = (((Config.builder.with_ikey k0).applyOps ops).build).interval :=
  ⟨rfl, rfl⟩

end AppInsights
